import Mathlib

/-!
Shallow embedding of the Notification Delivery Engine of the
Hospital-Management-System repository.

Source files embedded:
  - src/notifications/models.py   (Notification, NotificationType,
    NotificationLog and the transition methods mark_as_sent,
    mark_as_delivered, mark_as_read, mark_as_failed)
  - src/notifications/consumers.py (NotificationConsumer.mark_notification_read,
    NotificationConsumer.get_unread_count)
  - src/medical_records/signals.py (check_critical_lab_results)

Time is modelled as a natural number of minutes (`timezone.now()` becomes an
explicit `now : Nat` argument; `timedelta(minutes=k)` becomes `+ k`).
The database is modelled as a list of records; Django's per-row `save`
becomes functional record update.
-/

namespace HMS

/-- Status values of a Notification, from `Notification.STATUS_CHOICES`
in src/notifications/models.py. -/
inductive Status where
  | PENDING
  | SENT
  | DELIVERED
  | READ
  | FAILED
deriving DecidableEq, Repr

/-- Delivery channel values, from `Notification.CHANNEL_CHOICES`
in src/notifications/models.py. -/
inductive Channel where
  | EMAIL
  | SMS
  | PUSH
  | IN_APP
  | WEBSOCKET
deriving DecidableEq, Repr

/-- Priority values, from `NotificationType.PRIORITY_CHOICES`
in src/notifications/models.py. -/
inductive Priority where
  | LOW
  | MEDIUM
  | HIGH
  | URGENT
deriving DecidableEq, Repr

/-- One row of the `NotificationType` model (src/notifications/models.py,
lines 12-39): a name, a priority tier, an active flag, and four independent
channel-enabled booleans. -/
structure NotificationType where
  name : String
  priority : Priority
  is_active : Bool
  email_enabled : Bool
  sms_enabled : Bool
  push_enabled : Bool
  in_app_enabled : Bool
deriving DecidableEq, Repr

/-- One row of the `Notification` model (src/notifications/models.py,
lines 42-101).  `notification_id` and `recipient` (the foreign key
`recipient_id`) are modelled as naturals, timestamps as `Option Nat`
(null = `none`); `data` is not needed by any claim and is omitted. -/
structure Notification where
  notification_id : Nat
  recipient : Nat
  title : String
  message : String
  channel : Channel
  status : Status
  created_at : Nat
  sent_at : Option Nat
  delivered_at : Option Nat
  read_at : Option Nat
  retry_count : Nat
  max_retries : Nat
  next_retry_at : Option Nat
  error_message : String
deriving DecidableEq, Repr

/-- `Notification.objects.create(...)` with the model's field defaults
(src/notifications/models.py lines 70-84): `status='PENDING'`,
`retry_count=0`, `max_retries=3`, `next_retry_at=NULL`, empty
`error_message`, all delivery timestamps null, `created_at` = now. -/
def createNotification (nid recipient : Nat) (title message : String)
    (channel : Channel) (now : Nat) : Notification :=
  { notification_id := nid
    recipient := recipient
    title := title
    message := message
    channel := channel
    status := Status.PENDING
    created_at := now
    sent_at := none
    delivered_at := none
    read_at := none
    retry_count := 0
    max_retries := 3
    next_retry_at := none
    error_message := "" }

namespace Notification

/-- `Notification.mark_as_sent` (src/notifications/models.py lines 103-107):
sets `status='SENT'` and `sent_at=timezone.now()`, touching nothing else. -/
def mark_as_sent (n : Notification) (now : Nat) : Notification :=
  { n with status := Status.SENT, sent_at := some now }

/-- `Notification.mark_as_delivered` (src/notifications/models.py lines
109-113): sets `status='DELIVERED'` and `delivered_at=timezone.now()`. -/
def mark_as_delivered (n : Notification) (now : Nat) : Notification :=
  { n with status := Status.DELIVERED, delivered_at := some now }

/-- `Notification.mark_as_read` (src/notifications/models.py lines 115-119):
sets `status='READ'` and `read_at=timezone.now()`, unconditionally. -/
def mark_as_read (n : Notification) (now : Nat) : Notification :=
  { n with status := Status.READ, read_at := some now }

/-- `Notification.mark_as_failed` (src/notifications/models.py lines
121-132): sets `status='FAILED'`, records the error message, increments
`retry_count`; then, if the incremented `retry_count` is still below
`max_retries`, schedules a retry at `now + 5 * retry_count` minutes and
flips `status` back to `'PENDING'`.  In the other branch `next_retry_at`
is left at its previous value. -/
def mark_as_failed (n : Notification) (now : Nat) (msg : String) :
    Notification :=
  let n1 := { n with status := Status.FAILED, error_message := msg,
                     retry_count := n.retry_count + 1 }
  if n1.retry_count < n1.max_retries then
    { n1 with next_retry_at := some (now + 5 * n1.retry_count),
              status := Status.PENDING }
  else
    n1

end Notification

/-- One invocation of a transition method on a record, with the wall-clock
time at which `timezone.now()` is read (and the error message for
`mark_as_failed`). -/
inductive Op where
  | sent (now : Nat)
  | delivered (now : Nat)
  | read (now : Nat)
  | failed (now : Nat) (msg : String)
deriving DecidableEq, Repr

/-- Apply one transition method to a record. -/
def applyOp (n : Notification) : Op → Notification
  | Op.sent now => n.mark_as_sent now
  | Op.delivered now => n.mark_as_delivered now
  | Op.read now => n.mark_as_read now
  | Op.failed now msg => n.mark_as_failed now msg

/-- Apply a sequence of transition methods in order. -/
def applyOps (n : Notification) (ops : List Op) : Notification :=
  ops.foldl applyOp n

/-- One row of the append-only `NotificationLog` model
(src/notifications/models.py lines 208-229). -/
structure LogEntry where
  notification : Nat
  action : String
  details : String
  timestamp : Nat
deriving DecidableEq, Repr

/-- A record together with its audit-log table. -/
structure SysState where
  record : Notification
  logs : List LogEntry
deriving DecidableEq, Repr

/-- One transition method acting on the record and the log table.  The
transition methods in src/notifications/models.py (lines 103-132) call only
`self.save(update_fields=...)`; no code in the repository ever creates a
`NotificationLog` row, so the log table is left untouched. -/
def stepSys (s : SysState) (op : Op) : SysState :=
  { record := applyOp s.record op, logs := s.logs }

/-- `NotificationConsumer.get_unread_count` (src/notifications/consumers.py
lines 101-108): counts the rows with `recipient_id = user_id` and
`status__in = ['PENDING', 'SENT', 'DELIVERED']`. -/
def get_unread_count (db : List Notification) (user_id : Nat) : Nat :=
  (db.filter (fun n =>
    n.recipient == user_id &&
      (n.status == Status.PENDING || n.status == Status.SENT ||
        n.status == Status.DELIVERED))).length

/-- `NotificationConsumer.mark_notification_read`
(src/notifications/consumers.py lines 87-99): `Notification.objects.get`
filtered on both `notification_id` and `recipient_id`; if a row matches it
is marked read (`mark_as_read`) and `True` is returned, otherwise
`DoesNotExist` is caught and `False` is returned with the database
untouched.  `notification_id` is a unique column, so `get` updates the one
matching row. -/
def mark_notification_read (db : List Notification) (user_id nid now : Nat) :
    Bool × List Notification :=
  match db.find? (fun n => n.notification_id == nid && n.recipient == user_id) with
  | some _ =>
      (true, db.map (fun n =>
        if n.notification_id == nid && n.recipient == user_id then
          n.mark_as_read now
        else n))
  | none => (false, db)

/-- One `LabResult` row as read by `check_critical_lab_results`
(src/medical_records/signals.py lines 230-256): its criticality flag, its
status string, the ordering doctor's user id, and the rendered value
strings used in the message. -/
structure LabResult where
  is_critical : Bool
  status : String
  doctor_user : Nat
  test_name : String
  value : String
deriving DecidableEq, Repr

/-- `check_critical_lab_results` (src/medical_records/signals.py lines
230-256): on a saved `LabResult` that is critical and FINAL, look up the
`NotificationType` named "Critical Lab Result"; if it exists, create
exactly one Notification for the ordering doctor with `channel='IN_APP'`
(hard-coded); if the type does not exist, do nothing.  The user's
notification preferences and the type's channel-enabled flags are never
consulted. -/
def check_critical_lab_results (types : List NotificationType)
    (db : List Notification) (r : LabResult) (nid now : Nat) :
    List Notification :=
  if r.is_critical && r.status == "FINAL" then
    match types.find? (fun t => t.name == "Critical Lab Result") with
    | some _ =>
        db ++ [createNotification nid r.doctor_user "Critical Lab Result"
          ("Critical result for " ++ r.test_name ++ ": " ++ r.value)
          Channel.IN_APP now]
    | none => db
  else
    db

/-- Modelled from the spec: the Retry Scheduler of spec section 4.3 is not
present under src/; per the spec it "selects all Notification records with
`status == PENDING`, `retry_count > 0`, and `next_retry_at <= now`". -/
def retrySchedulerSelects (n : Notification) (now : Nat) : Bool :=
  n.status == Status.PENDING && decide (0 < n.retry_count) &&
    (match n.next_retry_at with
     | some t => decide (t ≤ now)
     | none => false)

/-- One row of the `NotificationPreference` model
(src/notifications/models.py lines 159-187): global per-channel toggles,
quiet hours (times as minutes-of-day) and digest settings.  No code path
embedded here ever reads it; it exists so that claims about preferences can
be stated. -/
structure NotificationPreference where
  user : Nat
  email_enabled : Bool
  sms_enabled : Bool
  push_enabled : Bool
  in_app_enabled : Bool
  quiet_hours_enabled : Bool
  quiet_start_time : Nat
  quiet_end_time : Nat
  digest_enabled : Bool
  digest_frequency : String
deriving DecidableEq, Repr

/-- Preference row for user 7 with both email and in-app enabled (the model
defaults from src/notifications/models.py lines 165-180). -/
def prefsBoth : NotificationPreference :=
  { user := 7
    email_enabled := true
    sms_enabled := true
    push_enabled := true
    in_app_enabled := true
    quiet_hours_enabled := false
    quiet_start_time := 22 * 60
    quiet_end_time := 8 * 60
    digest_enabled := false
    digest_frequency := "DAILY" }

/-- The "Critical Lab Result" `NotificationType`, with both email and
in-app among its eligible channels. -/
def critLabType : NotificationType :=
  { name := "Critical Lab Result"
    priority := Priority.URGENT
    is_active := true
    email_enabled := true
    sms_enabled := false
    push_enabled := true
    in_app_enabled := true }

/-- A critical lab result with final status, ordered by the doctor whose
user id is 7. -/
def critResult : LabResult :=
  { is_critical := true
    status := "FINAL"
    doctor_user := 7
    test_name := "Potassium"
    value := "7.1" }

/-- A freshly created record (id 1, recipient 10) with the model's
defaults. -/
def sample0 : Notification :=
  createNotification 1 10 "title" "msg" Channel.EMAIL 0

/-- `sample0` after one failed send attempt at time 0. -/
def sampleFail1 : Notification := sample0.mark_as_failed 0 "e1"

/-- `sample0` after two failed send attempts (times 0 and 5). -/
def sampleFail2 : Notification := sampleFail1.mark_as_failed 5 "e2"

/-- `sample0` after three failed send attempts (times 0, 5 and 15). -/
def sampleFail3 : Notification := sampleFail2.mark_as_failed 15 "e3"

/-- `sample0` after four failed send attempts. -/
def sampleFail4 : Notification := sampleFail3.mark_as_failed 20 "e4"

/-- `sample0` marked read at time 1. -/
def sampleRead : Notification := sample0.mark_as_read 1

/-- A second record (id 2) belonging to a different user (id 11). -/
def sampleOther : Notification :=
  createNotification 2 11 "title2" "msg2" Channel.IN_APP 0

/-- A two-row notification table with distinct ids and distinct
recipients. -/
def dbSample : List Notification := [sample0, sampleOther]

/-- A one-record system state with an empty audit-log table. -/
def sysSample : SysState := { record := sample0, logs := [] }

/-- The spec's characterisation of an unread notification for a user:
recipient matches and the status is one of PENDING, SENT, DELIVERED. -/
def unreadSpec (user_id : Nat) (n : Notification) : Prop :=
  n.recipient = user_id ∧
    n.status ∈ [Status.PENDING, Status.SENT, Status.DELIVERED]

instance (user_id : Nat) (n : Notification) : Decidable (unreadSpec user_id n) :=
  inferInstanceAs (Decidable (n.recipient = user_id ∧
    n.status ∈ [Status.PENDING, Status.SENT, Status.DELIVERED]))

/-- Sequences of transition-method calls in which `mark_as_failed` is only
ever invoked on a record that has not yet exhausted its retries
(`retry_count < max_retries`); the other three methods are unrestricted. -/
inductive GuardedReach : Notification → Notification → Prop where
  | refl (n : Notification) : GuardedReach n n
  | sent {n m : Notification} (t : Nat) :
      GuardedReach n m → GuardedReach n (m.mark_as_sent t)
  | delivered {n m : Notification} (t : Nat) :
      GuardedReach n m → GuardedReach n (m.mark_as_delivered t)
  | read {n m : Notification} (t : Nat) :
      GuardedReach n m → GuardedReach n (m.mark_as_read t)
  | failed {n m : Notification} (t : Nat) (msg : String) :
      GuardedReach n m → m.retry_count < m.max_retries →
      GuardedReach n (m.mark_as_failed t msg)


/-! Characterisation lemmas for `mark_as_failed`. -/

theorem mark_as_failed_retry_count (n : Notification) (t : Nat) (msg : String) :
    (n.mark_as_failed t msg).retry_count = n.retry_count + 1 := by
  unfold Notification.mark_as_failed
  dsimp only
  split <;> rfl

theorem mark_as_failed_max_retries (n : Notification) (t : Nat) (msg : String) :
    (n.mark_as_failed t msg).max_retries = n.max_retries := by
  unfold Notification.mark_as_failed
  dsimp only
  split <;> rfl

theorem mark_as_failed_status (n : Notification) (t : Nat) (msg : String) :
    (n.mark_as_failed t msg).status =
      if n.retry_count + 1 < n.max_retries then Status.PENDING
      else Status.FAILED := by
  unfold Notification.mark_as_failed
  dsimp only
  split <;> simp_all

theorem mark_as_failed_next_retry_at (n : Notification) (t : Nat) (msg : String) :
    (n.mark_as_failed t msg).next_retry_at =
      if n.retry_count + 1 < n.max_retries
      then some (t + 5 * (n.retry_count + 1))
      else n.next_retry_at := by
  unfold Notification.mark_as_failed
  dsimp only
  split <;> simp_all

/-- C1: the claim as stated is false: a fourth consecutive `mark_as_failed`
on a record created with the defaults drives `retry_count` to 4 while
`max_retries` is 3, so `retry_count <= max_retries` does not hold at every
point for every operation sequence. -/
theorem C1_retry_cap_cex :
    ¬ (sampleFail4.retry_count ≤ sampleFail4.max_retries) := by
  decide

/-- C1 (amended): along any sequence of transitions in which
`mark_as_failed` is only invoked on records that have not yet exhausted
their retries (as the retry scheduler guarantees, since it resubmits only
PENDING records), `retry_count <= max_retries` is preserved from any state
satisfying it. -/
theorem C1_retry_count_le_max_of_guarded (n m : Notification)
    (h0 : n.retry_count ≤ n.max_retries) (h : GuardedReach n m) :
    m.retry_count ≤ m.max_retries := by
  induction h with
  | refl => exact h0
  | sent t _ ih => exact ih
  | delivered t _ ih => exact ih
  | read t _ ih => exact ih
  | failed t msg _ hguard _ =>
      rw [mark_as_failed_retry_count, mark_as_failed_max_retries]
      exact Nat.succ_le_of_lt hguard

/-- C1 witness: the guarded invariant applied to one failure on a fresh
record. -/
theorem C1_retry_count_le_max_of_guarded_witness :
    sampleFail1.retry_count ≤ sampleFail1.max_retries :=
  C1_retry_count_le_max_of_guarded sample0 sampleFail1 (by decide)
    (GuardedReach.failed 0 "e1" (GuardedReach.refl sample0) (by decide))

/-- C2: the claim's parenthetical is false: with the default
`max_retries = 3`, the third failure is never rescheduled at `now + 15`
minutes — it reaches the cap, leaves `status = FAILED`, keeps the stale
`next_retry_at = some 15` from the second failure, and schedules nothing at
`some 30`. -/
theorem C2_third_retry_never_scheduled_cex :
    sampleFail3.retry_count = 3 ∧
    sampleFail3.status = Status.FAILED ∧
    sampleFail3.status ≠ Status.PENDING ∧
    sampleFail3.next_retry_at = some 15 ∧
    sampleFail3.next_retry_at ≠ some 30 := by
  decide

/-- C2 (amended): a transient failure with `retry_count < max_retries`
after the increment sets `retry_count + 1`, flips `status` back to PENDING
and schedules `next_retry_at = now + 5 * retry_count` (with the default
`max_retries = 3` this yields 5- and 10-minute delays for retries 1 and 2;
the third failure reaches the cap); once the cap is reached, `status` is
FAILED terminally, no new `next_retry_at` is written, and the retry
scheduler never selects the record. -/
theorem C2_mark_as_failed_backoff (n : Notification) (t : Nat) (msg : String) :
    (n.retry_count + 1 < n.max_retries →
      (n.mark_as_failed t msg).retry_count = n.retry_count + 1 ∧
      (n.mark_as_failed t msg).status = Status.PENDING ∧
      (n.mark_as_failed t msg).next_retry_at =
        some (t + 5 * (n.retry_count + 1))) ∧
    (n.max_retries ≤ n.retry_count + 1 →
      (n.mark_as_failed t msg).status = Status.FAILED ∧
      (n.mark_as_failed t msg).next_retry_at = n.next_retry_at ∧
      ∀ now : Nat, retrySchedulerSelects (n.mark_as_failed t msg) now = false) := by
  constructor
  · intro hlt
    refine ⟨mark_as_failed_retry_count n t msg, ?_, ?_⟩
    · rw [mark_as_failed_status, if_pos hlt]
    · rw [mark_as_failed_next_retry_at, if_pos hlt]
  · intro hge
    have hnot : ¬ (n.retry_count + 1 < n.max_retries) := by omega
    have hstat : (n.mark_as_failed t msg).status = Status.FAILED := by
      rw [mark_as_failed_status, if_neg hnot]
    refine ⟨hstat, ?_, ?_⟩
    · rw [mark_as_failed_next_retry_at, if_neg hnot]
    · intro now
      unfold retrySchedulerSelects
      rw [hstat]
      rfl

/-- C2 witness: the first failure of a fresh record is rescheduled 5
minutes out; the third failure (cap reached) is terminal FAILED. -/
theorem C2_mark_as_failed_backoff_witness :
    ((sample0.mark_as_failed 0 "e1").status = Status.PENDING ∧
      (sample0.mark_as_failed 0 "e1").next_retry_at = some 5) ∧
    (sampleFail2.mark_as_failed 15 "e3").status = Status.FAILED :=
  ⟨⟨((C2_mark_as_failed_backoff sample0 0 "e1").1 (by decide)).2.1,
    ((C2_mark_as_failed_backoff sample0 0 "e1").1 (by decide)).2.2⟩,
   ((C2_mark_as_failed_backoff sampleFail2 15 "e3").2 (by decide)).1⟩

/-- C3: the claim is false: the code has no permanent-failure path.
`mark_as_failed` called with a permanent-sounding error on a fresh record
increments `retry_count` to 1 (not to `max_retries = 3`) and flips the
status back to PENDING with a retry scheduled, instead of terminal
FAILED. -/
theorem C3_no_permanent_failure_cex :
    (sample0.mark_as_failed 0 "invalid recipient address").status =
      Status.PENDING ∧
    (sample0.mark_as_failed 0 "invalid recipient address").retry_count = 1 ∧
    (sample0.mark_as_failed 0 "invalid recipient address").retry_count ≠
      (sample0.mark_as_failed 0 "invalid recipient address").max_retries := by
  decide

/-- C3 (amended): every failure, whatever its error message, takes the one
`mark_as_failed` path: `retry_count` is incremented by exactly one and the
record becomes terminal FAILED exactly when the incremented count reaches
`max_retries`; `retry_count` is never forced to `max_retries` in one
step. -/
theorem C3_mark_as_failed_single_path (n : Notification) (t : Nat)
    (msg : String) :
    (n.mark_as_failed t msg).retry_count = n.retry_count + 1 ∧
    ((n.mark_as_failed t msg).status = Status.FAILED ↔
      n.max_retries ≤ n.retry_count + 1) := by
  refine ⟨mark_as_failed_retry_count n t msg, ?_⟩
  rw [mark_as_failed_status]
  by_cases h : n.retry_count + 1 < n.max_retries
  · rw [if_pos h]
    constructor
    · intro hc
      exact Status.noConfusion hc
    · intro hge
      omega
  · rw [if_neg h]
    constructor
    · intro _
      omega
    · intro _
      rfl

/-- C4: the claim is false: `mark_as_read` is not a no-op on an
already-READ record — a second call at a later time overwrites `read_at`,
so the terminal state differs from that of a single call. -/
theorem C4_mark_as_read_not_noop_cex :
    (sample0.mark_as_read 1).mark_as_read 2 ≠ sample0.mark_as_read 1 ∧
    ((sample0.mark_as_read 1).mark_as_read 2).read_at = some 2 ∧
    (sample0.mark_as_read 1).read_at = some 1 := by
  decide

/-- C4 (amended): `mark_as_read` is idempotent only up to the `read_at`
timestamp: a repeated call yields exactly the state of a single call made
at the second time (so same-instant repeats are exact no-ops), the status
stays READ and no error is raised; and no call appends any log entry,
because the code never writes NotificationLog rows at all. -/
theorem C4_mark_as_read_absorb (n : Notification) (t1 t2 : Nat) :
    (n.mark_as_read t1).mark_as_read t2 = n.mark_as_read t2 ∧
    (n.mark_as_read t1).mark_as_read t1 = n.mark_as_read t1 ∧
    ((n.mark_as_read t1).mark_as_read t2).status = Status.READ ∧
    ∀ s : SysState,
      (stepSys (stepSys s (Op.read t1)) (Op.read t2)).logs = s.logs := by
  exact ⟨rfl, rfl, rfl, fun _ => rfl⟩

/-- C7: the claim is false: a status transition appends no NotificationLog
entry — `mark_as_sent` moves the sample record from PENDING to SENT while
the log table stays empty instead of growing by one. -/
theorem C7_no_log_appended_cex :
    sysSample.record.status = Status.PENDING ∧
    (stepSys sysSample (Op.sent 1)).record.status = Status.SENT ∧
    sysSample.logs.length = 0 ∧
    (stepSys sysSample (Op.sent 1)).logs.length = 0 ∧
    (stepSys sysSample (Op.sent 1)).logs.length ≠
      sysSample.logs.length + 1 := by
  decide

/-- C7 (amended): no status transition appends any NotificationLog entry:
the transition methods only save the record's own fields, and no code in
the repository creates NotificationLog rows, so the log table is invariant
under every sequence of transitions. -/
theorem C7_transitions_append_no_logs (s : SysState) (ops : List Op) :
    (ops.foldl stepSys s).logs = s.logs := by
  induction ops generalizing s with
  | nil => rfl
  | cons op rest ih =>
      rw [List.foldl_cons]
      exact ih (stepSys s op)

/-- C8: the claim is false: READ is not enforced as terminal — applying
`mark_as_sent` to the READ sample record changes its status to SENT. -/
theorem C8_read_not_terminal_cex :
    sampleRead.status = Status.READ ∧
    (sampleRead.mark_as_sent 2).status = Status.SENT ∧
    sampleRead.mark_as_sent 2 ≠ sampleRead := by
  decide

/-- C8 (amended): the code does not guard the READ state: `mark_as_sent`
applied to a READ record changes it (the status becomes SENT).  Only a
repeated `mark_as_read` keeps the status at READ, and even that updates
`read_at`. -/
theorem C8_read_unguarded (n : Notification) (t : Nat)
    (h : n.status = Status.READ) :
    (n.mark_as_sent t).status = Status.SENT ∧
    n.mark_as_sent t ≠ n ∧
    (n.mark_as_delivered t).status = Status.DELIVERED ∧
    (n.mark_as_read t).status = Status.READ := by
    refine ⟨rfl, ?_, rfl, rfl⟩
    intro he
    have hst : (n.mark_as_sent t).status = n.status := congrArg Notification.status he
    rw [h] at hst
    exact Status.noConfusion hst

/-- C8 witness: the amended statement applied to the READ sample record. -/
theorem C8_read_unguarded_witness :
    (sampleRead.mark_as_sent 2).status = Status.SENT ∧
    sampleRead.mark_as_sent 2 ≠ sampleRead :=
  ⟨(C8_read_unguarded sampleRead 2 (by decide)).1,
   (C8_read_unguarded sampleRead 2 (by decide)).2.1⟩

/-- C9: the claim is false: `next_retry_at` can be non-null while the
status is not PENDING — after one transient failure the sample record has
`next_retry_at = some 5`, and `mark_as_sent` moves it to SENT without
clearing that field. -/
theorem C9_stale_next_retry_at_cex :
    (sampleFail1.mark_as_sent 7).status = Status.SENT ∧
    (sampleFail1.mark_as_sent 7).next_retry_at = some 5 ∧
    (sampleFail1.mark_as_sent 7).next_retry_at ≠ none := by
  decide

/-- C9 (amended): no transition ever resets `next_retry_at` to null:
`mark_as_sent`, `mark_as_delivered` and `mark_as_read` leave it unchanged,
and `mark_as_failed` leaves it unchanged too once the retry cap is
reached; so a record that once scheduled a retry keeps the stale value
whatever its later status. -/
theorem C9_next_retry_at_never_cleared (n : Notification) (t : Nat)
    (msg : String) :
    (n.mark_as_sent t).next_retry_at = n.next_retry_at ∧
    (n.mark_as_delivered t).next_retry_at = n.next_retry_at ∧
    (n.mark_as_read t).next_retry_at = n.next_retry_at ∧
    (n.max_retries ≤ n.retry_count + 1 →
      (n.mark_as_failed t msg).next_retry_at = n.next_retry_at) := by
  refine ⟨rfl, rfl, rfl, ?_⟩
  intro hge
  rw [mark_as_failed_next_retry_at, if_neg (by omega)]

/-- C9 witness: the amended statement applied to the twice-failed sample
record, whose third failure keeps `next_retry_at = some 15`. -/
theorem C9_next_retry_at_never_cleared_witness :
    (sampleFail2.mark_as_failed 15 "e3").next_retry_at =
      sampleFail2.next_retry_at :=
  (C9_next_retry_at_never_cleared sampleFail2 15 "e3").2.2.2 (by decide)

/-- C5 (confirmed): `get_unread_count` returns exactly the number of
records whose recipient is the user and whose status is one of PENDING,
SENT, DELIVERED. -/
theorem C5_get_unread_count_spec (db : List Notification) (user_id : Nat) :
    get_unread_count db user_id =
      (db.filter (fun n => decide (unreadSpec user_id n))).length := by
  have hfg : (fun n : Notification =>
      n.recipient == user_id &&
        (n.status == Status.PENDING || n.status == Status.SENT ||
          n.status == Status.DELIVERED)) =
      (fun n => decide (unreadSpec user_id n)) := by
    funext n
    rw [Bool.eq_iff_iff]
    simp only [Bool.and_eq_true, Bool.or_eq_true, beq_iff_eq,
      decide_eq_true_eq, unreadSpec, List.mem_cons, List.not_mem_nil,
      or_false]
    tauto
  unfold get_unread_count
  rw [hfg]

/-- C6: the claim is false: dispatching the critical-lab event for a type
whose eligible channels include email and in-app, to a user whose
preferences enable both, creates exactly 1 Notification record (channel
IN_APP, hard-coded), not 2 — the code never consults the preference or the
type's channel flags. -/
theorem C6_single_record_cex :
    prefsBoth.email_enabled = true ∧
    prefsBoth.in_app_enabled = true ∧
    critLabType.email_enabled = true ∧
    critLabType.in_app_enabled = true ∧
    (check_critical_lab_results [critLabType] [] critResult 1 0).length = 1 ∧
    (check_critical_lab_results [critLabType] [] critResult 1 0).length ≠ 2 ∧
    ∀ n ∈ check_critical_lab_results [critLabType] [] critResult 1 0,
      n.channel = Channel.IN_APP := by
  decide

/-- C6 (amended): dispatching one critical-lab event (result critical and
FINAL, the "Critical Lab Result" type present) always appends exactly one
Notification record, addressed to the ordering doctor with channel IN_APP;
per-channel fan-out never happens and user preferences play no role, since
`check_critical_lab_results` takes no preference input. -/
theorem C6_dispatch_one_in_app_record (types : List NotificationType)
    (db : List Notification) (r : LabResult) (nid now : Nat)
    (ty : NotificationType)
    (hc : r.is_critical = true) (hs : r.status = "FINAL")
    (hty : types.find? (fun t => t.name == "Critical Lab Result") = some ty) :
    (check_critical_lab_results types db r nid now).length = db.length + 1 ∧
    check_critical_lab_results types db r nid now =
      db ++ [createNotification nid r.doctor_user "Critical Lab Result"
        ("Critical result for " ++ r.test_name ++ ": " ++ r.value)
        Channel.IN_APP now] ∧
    ∀ n ∈ check_critical_lab_results types db r nid now,
      n ∈ db ∨ n.channel = Channel.IN_APP := by
  have heq : check_critical_lab_results types db r nid now =
      db ++ [createNotification nid r.doctor_user "Critical Lab Result"
        ("Critical result for " ++ r.test_name ++ ": " ++ r.value)
        Channel.IN_APP now] := by
    unfold check_critical_lab_results
    rw [hc, hs, hty]
    rfl
  refine ⟨?_, heq, ?_⟩
  · rw [heq]
    simp
  · intro n hn
    rw [heq] at hn
    rcases List.mem_append.mp hn with h | h
    · exact Or.inl h
    · right
      rw [List.mem_singleton.mp h]
      rfl

/-- C6 witness: the amended statement at the concrete critical-result
scenario. -/
theorem C6_dispatch_one_in_app_record_witness :
    (check_critical_lab_results [critLabType] [] critResult 1 0).length =
      ([] : List Notification).length + 1 :=
  (C6_dispatch_one_in_app_record [critLabType] [] critResult 1 0 critLabType
    (by decide) (by decide) (by decide)).1

/-- Records of a table with pairwise-distinct ids are determined by their
id (the `unique=True` constraint on `notification_id`). -/
theorem eq_of_mem_of_same_id (m x : Notification) :
    ∀ db : List Notification,
      db.Pairwise (fun a b => a.notification_id ≠ b.notification_id) →
      m ∈ db → x ∈ db → m.notification_id = x.notification_id → m = x := by
  intro db
  induction db with
  | nil =>
      intro _ hm _ _
      cases hm
  | cons a l ih =>
      intro hp hm hx heq
      rw [List.pairwise_cons] at hp
      rcases List.mem_cons.mp hm with rfl | hm'
      · rcases List.mem_cons.mp hx with rfl | hx'
        · rfl
        · exact absurd heq (hp.1 x hx')
      · rcases List.mem_cons.mp hx with rfl | hx'
        · exact absurd heq (Ne.symm (hp.1 m hm'))
        · exact ih hp.2 hm' hx' heq

/-- C10 (confirmed): under the table's unique-id constraint, a
`mark_notification_read` request whose id does not match a record of the
requesting user returns `False` and leaves the table unchanged, while a
matching id returns `True` and rewrites exactly the one record with that
id to its `mark_as_read` image (status READ), leaving every other record
untouched. -/
theorem C10_mark_notification_read_spec (db : List Notification)
    (user_id nid now : Nat)
    (huniq : db.Pairwise (fun a b => a.notification_id ≠ b.notification_id)) :
    ((∀ n ∈ db, ¬(n.notification_id = nid ∧ n.recipient = user_id)) →
      mark_notification_read db user_id nid now = (false, db)) ∧
    (∀ x ∈ db, x.notification_id = nid → x.recipient = user_id →
      (mark_notification_read db user_id nid now).1 = true ∧
      (mark_notification_read db user_id nid now).2 =
        db.map (fun m => if m.notification_id = nid
          then m.mark_as_read now else m) ∧
      (x.mark_as_read now).status = Status.READ) := by
  constructor
  · intro habs
    have hnone : db.find? (fun n =>
        n.notification_id == nid && n.recipient == user_id) = none := by
      rw [List.find?_eq_none]
      intro n hn
      simp only [Bool.and_eq_true, beq_iff_eq, not_and]
      intro h1 h2
      exact habs n hn ⟨h1, h2⟩
    unfold mark_notification_read
    rw [hnone]
  · intro x hx hxn hxr
    have hpred : (fun n : Notification =>
        n.notification_id == nid && n.recipient == user_id) x = true := by
      simp [hxn, hxr]
    cases hfind : db.find? (fun n =>
        n.notification_id == nid && n.recipient == user_id) with
    | none =>
        exact absurd hpred (List.find?_eq_none.mp hfind x hx)
    | some y =>
        refine ⟨?_, ?_, rfl⟩
        · unfold mark_notification_read
          rw [hfind]
        · unfold mark_notification_read
          rw [hfind]
          dsimp only
          apply List.map_congr_left
          intro m hm
          by_cases hmn : m.notification_id = nid
          · have hmx : m = x :=
              eq_of_mem_of_same_id m x db huniq hm hx (by rw [hmn, hxn])
            subst hmx
            simp [hxn, hxr, hmn]
          · have hb : (m.notification_id == nid) = false := by
              simp [hmn]
            simp [hb, hmn]

/-- C10 witness: on the two-row sample table, marking record 1 as user 10
succeeds and marking a nonexistent record 99 as user 10 returns `False`
with the table unchanged. -/
theorem C10_mark_notification_read_spec_witness :
    (mark_notification_read dbSample 10 1 5).1 = true ∧
    mark_notification_read dbSample 10 99 5 = (false, dbSample) :=
  ⟨((C10_mark_notification_read_spec dbSample 10 1 5 (by decide)).2
      sample0 (by decide) (by decide) (by decide)).1,
   (C10_mark_notification_read_spec dbSample 10 99 5 (by decide)).1
      (by decide)⟩

end HMS
